import Mathlib

/-!
BaikalDB memory accounting and reclamation.

A shallow embedding of

* `src/common/memory_profile.cpp`: `MemoryGCHandler::memory_gc_thread` (the allocator
  reclamation loop) and `MemTrackerPool::tracker_gc_thread` (idle eviction of trackers);
* `src/runtime/runtime_state.cpp`: `RuntimeState::memory_limit_exceeded` and
  `RuntimeState::memory_limit_release` (the per-query memory guard).

Machine integers are `Nat`/`Int` with the C++ conversions written out: `size_t` values are
naturals below `2 ^ 64`, `int64_t` values are integers in `[-2 ^ 63, 2 ^ 63)`.
-/

namespace baikaldb

/-! ## Machine integers -/

/-- Value of an integer stored into a `size_t`: reduction modulo `2 ^ 64`.  This is both the
implicit conversion of an `int64_t` operand in a mixed `size_t`/`int64_t` expression and the
wrap-around of unsigned addition and subtraction. -/
def to_size_t (x : Int) : Nat := (x % 18446744073709551616).toNat

/-- The cast `(int64_t)` applied to a `size_t` value: two's complement reinterpretation. -/
def to_int64 (n : Nat) : Int :=
  if n % 18446744073709551616 < 9223372036854775808 then ((n % 18446744073709551616 : Nat) : Int)
  else ((n % 18446744073709551616 : Nat) : Int) - 18446744073709551616

/-- Range of a `size_t`. -/
def is_size_t (n : Nat) : Prop := n < 18446744073709551616

/-- Range of an `int64_t`. -/
def is_int64 (x : Int) : Prop := -9223372036854775808 ≤ x ∧ x < 9223372036854775808

/-! ## `MemoryGCHandler::memory_gc_thread` -/

/-- The two gflags read by the reclamation branch (both `DEFINE_int64`). -/
structure GcFlags where
  FLAGS_min_memory_use_size : Int
  FLAGS_min_memory_free_size_to_release : Int

/-- The flag defaults of `memory_profile.cpp` lines 25-26. -/
def GcFlags.defaults : GcFlags :=
  { FLAGS_min_memory_use_size := 8589934592
    FLAGS_min_memory_free_size_to_release := 2147483648 }

/-- One mebibyte. -/
def MiB : Nat := 1024 * 1024

/-- One gibibyte. -/
def GiB : Nat := 1024 * 1024 * 1024

/-- The chunk size, `const size_t BYTES_TO_GC = 8 * 1024 * 1024;` (line 32). -/
def BYTES_TO_GC : Nat := 8 * 1024 * 1024

/-- The loop `while (bytes > BYTES_TO_GC) { ReleaseToSystem(BYTES_TO_GC); bytes -= BYTES_TO_GC; }`
of lines 65-68.  `calls` is the list of arguments passed to `ReleaseToSystem` so far, oldest
first; the result is that list together with the value of `bytes` when the loop exits. -/
def release_loop (bytes : Nat) (calls : List Nat) : List Nat × Nat :=
  if BYTES_TO_GC < bytes then
    release_loop (bytes - BYTES_TO_GC) (calls ++ [BYTES_TO_GC])
  else
    (calls, bytes)
termination_by bytes
decreasing_by
  have hpos : 0 < BYTES_TO_GC := by decide
  omega

/-- What one pass through the body of `while (!_shutdown)` does to the allocator:
`ReleaseToSystem` holds the arguments of the release-to-system calls in the order they were
made; `total_bytes_to_gc` and `bytes` are the locals of the inner branch (`none` when that
branch is not entered), `bytes` being its value when the release loop exits. -/
structure GcCycle where
  ReleaseToSystem : List Nat
  total_bytes_to_gc : Option Nat
  bytes : Option Nat
deriving DecidableEq, Repr

/-- One pass through the body of the `while (!_shutdown)` loop of
`MemoryGCHandler::memory_gc_thread` (lines 35-71, compiled with `BAIKAL_TCMALLOC`; without that
symbol the function body is empty and nothing is ever released).  `used_size` and `free_size` are
the two `size_t` values the allocator reports.  The statistics dump of lines 42-58 only writes to
the log and is left out. -/
def memory_gc_cycle (flags : GcFlags) (used_size free_size : Nat) : GcCycle :=
  let alloc_size := to_size_t ((used_size : Int) + (free_size : Int))
  if to_int64 alloc_size > flags.FLAGS_min_memory_use_size then
    if free_size > to_size_t flags.FLAGS_min_memory_free_size_to_release then
      let total_bytes_to_gc :=
        to_size_t ((free_size : Int) - (to_size_t flags.FLAGS_min_memory_free_size_to_release : Int))
      let r := release_loop total_bytes_to_gc []
      { ReleaseToSystem := r.1, total_bytes_to_gc := some total_bytes_to_gc, bytes := some r.2 }
    else
      { ReleaseToSystem := [], total_bytes_to_gc := none, bytes := none }
  else
    { ReleaseToSystem := [], total_bytes_to_gc := none, bytes := none }

/-- The thread `MemoryGCHandler::memory_gc_thread`: one cycle per allocator poll made before
`_shutdown` is observed. -/
def memory_gc_thread (flags : GcFlags) (polls : List (Nat × Nat)) : List GcCycle :=
  polls.map (fun p => memory_gc_cycle flags p.1 p.2)

/-! ## `MemTracker` and the tracker pool -/

/-- Modelled from the spec: the class `MemTracker` is declared in `memory_profile.h`, which is not
among the sources.  The fields are those of the spec's Tracker (section 3), named after the
accessors `bytes_limit()`, `bytes_consumed()` and `last_active_time()` that the sources call. -/
structure MemTracker where
  bytes_limit : Int
  bytes_consumed : Int
  last_active_time : Int
deriving DecidableEq, Repr

/-- Modelled from the spec: `MemTracker::consume` (section 4.1) adds `bytes` to the consumed
count and sets the last-active time to the clock reading `now`. -/
def MemTracker.consume (t : MemTracker) (bytes now : Int) : MemTracker :=
  { t with bytes_consumed := t.bytes_consumed + bytes, last_active_time := now }

/-- Modelled from the spec: `MemTracker::release` (section 4.1) subtracts `bytes` from the
consumed count, clamped at zero, and sets the last-active time to the clock reading `now`. -/
def MemTracker.release (t : MemTracker) (bytes now : Int) : MemTracker :=
  { t with bytes_consumed := max 0 (t.bytes_consumed - bytes), last_active_time := now }

/-- Modelled from the spec: `MemTracker::check_bytes_limit` (section 4.1) is true exactly when
the consumed count is strictly above the limit. -/
def MemTracker.check_bytes_limit (t : MemTracker) : Bool :=
  decide (t.bytes_consumed > t.bytes_limit)

/-- A `SmartMemTracker` is a shared pointer to a `MemTracker`: here the address of the object. -/
abbrev SmartMemTracker := Nat

/-- The calls a guard makes on its collaborators, recorded in the order they happen. -/
inductive Call where
  | get_mem_tracker (log_id : Nat)
  | consume (tracker : SmartMemTracker) (bytes : Int)
  | release (tracker : SmartMemTracker) (bytes : Int)
deriving DecidableEq, Repr

/-- The state shared by all guards and the eviction thread: the tracker objects by address
(`trackers`, with `next_tracker` the first address not yet handed out), the map
`MemTrackerPool::_mem_tracker_pool` from log id to tracker as an association list, the
process-wide default limit given to new trackers, and the record of calls made so far. -/
structure MemTrackerPool where
  trackers : SmartMemTracker → MemTracker
  next_tracker : SmartMemTracker
  _mem_tracker_pool : List (Nat × SmartMemTracker)
  default_bytes_limit : Int
  calls : List Call

/-- Modelled from the spec: `MemTrackerPool::get_mem_tracker` is declared in `memory_profile.h`,
which is not among the sources.  It is the spec's `get_or_create` (section 4.2): the tracker
already registered for `log_id` if there is one, otherwise a new tracker with the process-wide
default limit, inserted under `log_id`.  The spec does not give the first last-active time of a
new tracker; it is set to the clock reading `now`. -/
def MemTrackerPool.get_mem_tracker (σ : MemTrackerPool) (log_id : Nat) (now : Int) :
    MemTrackerPool × SmartMemTracker :=
  match σ._mem_tracker_pool.lookup log_id with
  | some p => ({ σ with calls := σ.calls ++ [Call.get_mem_tracker log_id] }, p)
  | none =>
    ({ σ with
        trackers := Function.update σ.trackers σ.next_tracker
          { bytes_limit := σ.default_bytes_limit, bytes_consumed := 0, last_active_time := now }
        next_tracker := σ.next_tracker + 1
        _mem_tracker_pool := (log_id, σ.next_tracker) :: σ._mem_tracker_pool
        calls := σ.calls ++ [Call.get_mem_tracker log_id] },
      σ.next_tracker)

/-- Modelled from the spec: `erase` on the pool map (section 4.2) removes the entry for `log_id`
if present. -/
def MemTrackerPool.erase (σ : MemTrackerPool) (log_id : Nat) : MemTrackerPool :=
  { σ with _mem_tracker_pool := σ._mem_tracker_pool.filter (fun e => e.1 != log_id) }

/-- The call `tracker->consume(bytes)` through the pointer `tracker`. -/
def MemTrackerPool.consume (σ : MemTrackerPool) (tracker : SmartMemTracker) (bytes now : Int) :
    MemTrackerPool :=
  { σ with
      trackers := Function.update σ.trackers tracker ((σ.trackers tracker).consume bytes now)
      calls := σ.calls ++ [Call.consume tracker bytes] }

/-- The call `tracker->release(bytes)` through the pointer `tracker`. -/
def MemTrackerPool.release (σ : MemTrackerPool) (tracker : SmartMemTracker) (bytes now : Int) :
    MemTrackerPool :=
  { σ with
      trackers := Function.update σ.trackers tracker ((σ.trackers tracker).release bytes now)
      calls := σ.calls ++ [Call.release tracker bytes] }

/-! ## `MemTrackerPool::tracker_gc_thread` -/

/-- An integer result stored into an `int64_t`: two's complement wrap-around (what the compiled
code does on signed overflow). -/
def wrap_int64 (x : Int) : Int := to_int64 (to_size_t x)

/-- The right-hand side of the tests of lines 82 and 87,
`FLAGS_mem_tracker_gc_interval_s * 1000 * 1000LL`, both products taken in `int64_t`. -/
def idle_threshold (FLAGS_mem_tracker_gc_interval_s : Int) : Int :=
  wrap_int64 (wrap_int64 (FLAGS_mem_tracker_gc_interval_s * 1000) * 1000)

/-- The test of lines 82 and 87:
`gettimeofday_us() - last_active_time() > FLAGS_mem_tracker_gc_interval_s * 1000 * 1000LL`,
with `now` the clock reading; the difference and the products are `int64_t` operations. -/
def idle (FLAGS_mem_tracker_gc_interval_s now last_active_time : Int) : Bool :=
  decide (wrap_int64 (now - last_active_time) > idle_threshold FLAGS_mem_tracker_gc_interval_s)

/-- The assignment `m[k] = v` on a `std::map<uint64_t, _>`, kept as a list sorted by key. -/
def map_assign (m : List (Nat × SmartMemTracker)) (k : Nat) (v : SmartMemTracker) :
    List (Nat × SmartMemTracker) :=
  match m with
  | [] => [(k, v)]
  | e :: rest =>
    if k < e.1 then (k, v) :: e :: rest
    else if k = e.1 then (k, v) :: rest
    else e :: map_assign rest k v

/-- The traversal of lines 80-85 over the pool entries `entries`: every entry whose tracker is
idle when visited is assigned into `need_erase`.  `clock log_id` is the clock reading taken when
the entry of `log_id` is visited, `trackers` gives the tracker objects as read at that visit. -/
def scan (interval : Int) (trackers : SmartMemTracker → MemTracker) (clock : Nat → Int)
    (entries : List (Nat × SmartMemTracker)) (need_erase : List (Nat × SmartMemTracker)) :
    List (Nat × SmartMemTracker) :=
  match entries with
  | [] => need_erase
  | e :: rest =>
    if idle interval (clock e.1) (trackers e.2).last_active_time then
      scan interval trackers clock rest (map_assign need_erase e.1 e.2)
    else
      scan interval trackers clock rest need_erase

/-- The loop of lines 86-90 over `need_erase`: the last-active time is read again through the
pointer kept in `need_erase`, against a new clock reading, and the key is erased from the pool
only if the tracker is still idle. -/
def recheck (interval : Int) (clock : Nat → Int) (need_erase : List (Nat × SmartMemTracker))
    (σ : MemTrackerPool) : MemTrackerPool :=
  match need_erase with
  | [] => σ
  | e :: rest =>
    if idle interval (clock e.1) (σ.trackers e.2).last_active_time then
      recheck interval clock rest (σ.erase e.1)
    else
      recheck interval clock rest σ

/-- One pass through the body of the `while (!_shutdown)` loop of
`MemTrackerPool::tracker_gc_thread` (lines 80-90).  `σ₁` is the shared state the traversal
reads and `clock₁` the clock readings it takes; `σ₂` is the shared state at the recheck (after
whatever the query threads did in between) and `clock₂` the clock readings of the recheck. -/
def tracker_gc_cycle (FLAGS_mem_tracker_gc_interval_s : Int)
    (σ₁ : MemTrackerPool) (clock₁ : Nat → Int)
    (σ₂ : MemTrackerPool) (clock₂ : Nat → Int) : MemTrackerPool :=
  recheck FLAGS_mem_tracker_gc_interval_s clock₂
    (scan FLAGS_mem_tracker_gc_interval_s σ₁.trackers clock₁ σ₁._mem_tracker_pool []) σ₂

/-! ## `RuntimeState`: the memory guard -/

/-- The enumeration `MysqlErrCode` is declared outside the sources; only the enumerator that the
guard stores is named. -/
inductive MysqlErrCode where
  | ER_TOO_BIG_SELECT
  | other (code : Nat)
deriving DecidableEq, Repr

/-- The members of `RuntimeState` that the two guard methods read or write.  `_mem_tracker` is
`none` for `nullptr`. -/
structure RuntimeState where
  _log_id : Nat
  _mem_tracker : Option SmartMemTracker
  _used_bytes : Int
  error_code : MysqlErrCode
  error_msg : String
deriving DecidableEq, Repr

/-- What a guard method leaves behind: the shared state, the guard and the returned `int`. -/
structure Outcome where
  pool : MemTrackerPool
  state : RuntimeState
  ret : Int

/-- Lines 142-147 of `RuntimeState::memory_limit_exceeded`: the tracker is fetched from the pool
only when `_mem_tracker` is `nullptr` (both tests of the double-checked lock read the same value
in a sequential run). -/
def RuntimeState.resolve (s : RuntimeState) (σ : MemTrackerPool) (now : Int) :
    MemTrackerPool × SmartMemTracker :=
  match s._mem_tracker with
  | some p => (σ, p)
  | none => σ.get_mem_tracker s._log_id now

/-- The method `RuntimeState::memory_limit_exceeded` (lines 141-158); `now` is the clock reading of the
call.  `_used_bytes += bytes` is exact integer arithmetic. -/
def RuntimeState.memory_limit_exceeded (s : RuntimeState) (σ : MemTrackerPool)
    (bytes now : Int) : Outcome :=
  let r := s.resolve σ now
  let σ' := r.1.consume r.2 bytes now
  let s' := { s with _mem_tracker := some r.2, _used_bytes := s._used_bytes + bytes }
  if (σ'.trackers r.2).check_bytes_limit then
    { pool := σ'
      state := { s' with error_code := MysqlErrCode.ER_TOO_BIG_SELECT
                         error_msg := "select reach memory limit" }
      ret := -1 }
  else
    { pool := σ', state := s', ret := 0 }

/-- The method `RuntimeState::memory_limit_release` (lines 160-170); `now` is the clock reading of the
call. -/
def RuntimeState.memory_limit_release (s : RuntimeState) (σ : MemTrackerPool)
    (bytes now : Int) : Outcome :=
  let σ' := match s._mem_tracker with
    | some p => σ.release p bytes now
    | none => σ
  let used := s._used_bytes - bytes
  { pool := σ'
    state := { s with _used_bytes := if used < 0 then 0 else used }
    ret := 0 }

/-- What can happen around one guard: a charge, an uncharge, or any activity of the other
threads (other guards, the eviction thread) on the shared state between two of its calls. -/
inductive GuardOp where
  | charge (bytes now : Int)
  | uncharge (bytes now : Int)
  | others (f : MemTrackerPool → MemTrackerPool)

/-- The byte count of the operation, if it is a call on the guard, is not negative. -/
def GuardOp.nonneg : GuardOp → Prop
  | GuardOp.charge bytes _ => 0 ≤ bytes
  | GuardOp.uncharge bytes _ => 0 ≤ bytes
  | GuardOp.others _ => True

/-- One operation on the pair of shared state and guard. -/
def step (x : MemTrackerPool × RuntimeState) (op : GuardOp) : MemTrackerPool × RuntimeState :=
  match op with
  | GuardOp.charge bytes now =>
    ((x.2.memory_limit_exceeded x.1 bytes now).pool, (x.2.memory_limit_exceeded x.1 bytes now).state)
  | GuardOp.uncharge bytes now =>
    ((x.2.memory_limit_release x.1 bytes now).pool, (x.2.memory_limit_release x.1 bytes now).state)
  | GuardOp.others f => (f x.1, x.2)

/-- A sequence of operations, oldest first. -/
def run (ops : List GuardOp) (x : MemTrackerPool × RuntimeState) : MemTrackerPool × RuntimeState :=
  ops.foldl step x

/-- A pool in which no tracker is registered; new trackers get a limit of 100 bytes. -/
def empty_pool : MemTrackerPool :=
  { trackers := fun _ => { bytes_limit := 100, bytes_consumed := 0, last_active_time := 0 }
    next_tracker := 0
    _mem_tracker_pool := []
    default_bytes_limit := 100
    calls := [] }

/-- A guard for log id 42 on which neither method has been called yet. -/
def fresh_guard : RuntimeState :=
  { _log_id := 42
    _mem_tracker := none
    _used_bytes := 0
    error_code := MysqlErrCode.other 0
    error_msg := "" }

/-- The tracker objects of the eviction example: tracker 0 and tracker 1, both last active at
time 0. -/
def example_trackers : SmartMemTracker → MemTracker :=
  fun _ => { bytes_limit := 100, bytes_consumed := 0, last_active_time := 0 }

/-- The shared state of the eviction example when the traversal runs: log id 1 is registered
with tracker 0 and log id 2 with tracker 1. -/
def example_scan_pool : MemTrackerPool :=
  { trackers := example_trackers
    next_tracker := 2
    _mem_tracker_pool := [(1, 0), (2, 1)]
    default_bytes_limit := 100
    calls := [] }

/-- The shared state of the eviction example at the recheck: in between, a guard consumed
10 bytes on tracker 1 at time 100000001. -/
def example_recheck_pool : MemTrackerPool :=
  example_scan_pool.consume 1 10 100000001

/-! ## Lemmas on the release loop -/

theorem BYTES_TO_GC_eq : BYTES_TO_GC = 8388608 := by decide

theorem release_loop_closed (bytes : Nat) : ∀ calls : List Nat,
    release_loop bytes calls =
      (calls ++ List.replicate ((bytes + BYTES_TO_GC - 1) / BYTES_TO_GC - 1) BYTES_TO_GC,
        bytes - BYTES_TO_GC * ((bytes + BYTES_TO_GC - 1) / BYTES_TO_GC - 1)) := by
  induction bytes using Nat.strong_induction_on with
  | _ bytes ih =>
    intro calls
    rw [release_loop]
    split
    · rename_i hlt
      have hlt2 : 8388608 < bytes := by rw [BYTES_TO_GC_eq] at hlt; exact hlt
      rw [ih (bytes - BYTES_TO_GC) (by rw [BYTES_TO_GC_eq]; omega)]
      have hn : (bytes + BYTES_TO_GC - 1) / BYTES_TO_GC - 1
          = ((bytes - BYTES_TO_GC + BYTES_TO_GC - 1) / BYTES_TO_GC - 1) + 1 := by
        rw [BYTES_TO_GC_eq]; omega
      rw [hn, List.replicate_succ, List.append_assoc]
      refine Prod.ext rfl ?_
      simp only [List.singleton_append]
      rw [BYTES_TO_GC_eq]
      have : 1 ≤ (bytes - 8388608 + 8388608 - 1) / 8388608 := by omega
      generalize (bytes - 8388608 + 8388608 - 1) / 8388608 = q at *
      omega
    · rename_i hge
      have hle : bytes ≤ 8388608 := by rw [BYTES_TO_GC_eq] at hge; omega
      have hn : (bytes + BYTES_TO_GC - 1) / BYTES_TO_GC - 1 = 0 := by
        rw [BYTES_TO_GC_eq]; omega
      rw [hn]; simp

/-- The loop started from `bytes = BYTES_TO_GC * n + r` with `0 < r ≤ BYTES_TO_GC` makes `n` calls
of `BYTES_TO_GC` bytes each and exits with `bytes = r`. -/
theorem release_loop_spec (bytes n r : Nat) (h : bytes = BYTES_TO_GC * n + r)
    (hr0 : 0 < r) (hr : r ≤ BYTES_TO_GC) :
    release_loop bytes [] = (List.replicate n BYTES_TO_GC, r) := by
  rw [release_loop_closed, List.nil_append]
  have hn : (bytes + BYTES_TO_GC - 1) / BYTES_TO_GC - 1 = n := by
    rw [BYTES_TO_GC_eq] at *; omega
  rw [hn]
  refine Prod.ext rfl ?_
  show bytes - BYTES_TO_GC * n = r
  omega

theorem to_size_t_of_nat (n : Nat) (h : n < 18446744073709551616) : to_size_t (n : Int) = n := by
  unfold to_size_t; omega

theorem to_size_t_sub (a b : Nat) (ha : a < 18446744073709551616) (hb : b < a) :
    to_size_t ((a : Int) - (b : Int)) = a - b := by
  unfold to_size_t; omega

theorem to_int64_le (n : Nat) : to_int64 n ≤ (n : Int) := by
  unfold to_int64; split <;> omega

/-- The cycle when both guards of lines 61-62 pass and the excess is `BYTES_TO_GC * n + r` with
`0 < r ≤ BYTES_TO_GC`. -/
theorem memory_gc_cycle_of_trigger (flags : GcFlags) (used_size free_size n r : Nat)
    (hfree : free_size < 18446744073709551616)
    (h1 : to_int64 (to_size_t ((used_size : Int) + (free_size : Int)))
      > flags.FLAGS_min_memory_use_size)
    (h2 : free_size > to_size_t flags.FLAGS_min_memory_free_size_to_release)
    (hE : free_size - to_size_t flags.FLAGS_min_memory_free_size_to_release
      = BYTES_TO_GC * n + r)
    (hr0 : 0 < r) (hr : r ≤ BYTES_TO_GC) :
    memory_gc_cycle flags used_size free_size =
      { ReleaseToSystem := List.replicate n BYTES_TO_GC
        total_bytes_to_gc :=
          some (free_size - to_size_t flags.FLAGS_min_memory_free_size_to_release)
        bytes := some r } := by
  simp only [memory_gc_cycle, h1, h2, if_true]
  rw [to_size_t_sub _ _ hfree h2, release_loop_spec _ n r hE hr0 hr]

/-- The cycle when one of the guards of lines 61-62 fails. -/
theorem memory_gc_cycle_of_no_trigger (flags : GcFlags) (used_size free_size : Nat)
    (h : ¬ (to_int64 (to_size_t ((used_size : Int) + (free_size : Int)))
        > flags.FLAGS_min_memory_use_size) ∨
      ¬ (free_size > to_size_t flags.FLAGS_min_memory_free_size_to_release)) :
    memory_gc_cycle flags used_size free_size =
      { ReleaseToSystem := [], total_bytes_to_gc := none, bytes := none } := by
  unfold memory_gc_cycle
  rcases h with h | h
  · simp only [h, if_false]
  · simp only [h, if_false]; split <;> rfl

/-! ## The reclamation cycle: claims -/

theorem ten_GiB : 10 * GiB = 10737418240 := by decide

theorem three_GiB : 3 * GiB = 3221225472 := by decide

theorem three_GiB_four_MiB : 3 * GiB + 4 * MiB = 3225419776 := by decide

/-- For sizes that fit an `int64_t` and a non-negative free threshold, the two guards of lines
61-62 are the plain comparisons `used + free > min_memory_use_size` and
`free > min_memory_free_size_to_release`. -/
theorem trigger_of_sizes (flags : GcFlags) (used_size free_size : Nat)
    (hsize : used_size + free_size < 9223372036854775808)
    (hflag : 0 ≤ flags.FLAGS_min_memory_free_size_to_release)
    (h1 : (used_size : Int) + (free_size : Int) > flags.FLAGS_min_memory_use_size)
    (h2 : (free_size : Int) > flags.FLAGS_min_memory_free_size_to_release) :
    to_int64 (to_size_t ((used_size : Int) + (free_size : Int)))
        > flags.FLAGS_min_memory_use_size
      ∧ free_size > to_size_t flags.FLAGS_min_memory_free_size_to_release := by
  constructor
  · unfold to_int64 to_size_t
    split <;> omega
  · unfold to_size_t
    omega

/-- Both guards pass for the two polls of the worked examples under the default flags. -/
theorem defaults_trigger (used_size free_size : Nat) (hu : used_size = 10737418240)
    (hf : free_size = 3221225472 ∨ free_size = 3225419776) :
    to_int64 (to_size_t ((used_size : Int) + (free_size : Int)))
        > GcFlags.defaults.FLAGS_min_memory_use_size
      ∧ free_size > to_size_t GcFlags.defaults.FLAGS_min_memory_free_size_to_release := by
  subst hu
  have e1 : GcFlags.defaults.FLAGS_min_memory_use_size = 8589934592 := rfl
  have e2 : GcFlags.defaults.FLAGS_min_memory_free_size_to_release = 2147483648 := rfl
  rw [e1, e2]
  unfold to_int64 to_size_t
  rcases hf with hf | hf <;> subst hf <;> constructor <;> first | (split <;> omega) | omega

theorem defaults_min_free :
    to_size_t GcFlags.defaults.FLAGS_min_memory_free_size_to_release = 2147483648 := by
  have e2 : GcFlags.defaults.FLAGS_min_memory_free_size_to_release = 2147483648 := rfl
  rw [e2]; unfold to_size_t; omega

/-- The cycle of the first worked example: 10 GiB used, 3 GiB free, default flags. -/
theorem cycle_10GiB_3GiB :
    memory_gc_cycle GcFlags.defaults 10737418240 3221225472 =
      { ReleaseToSystem := List.replicate 127 BYTES_TO_GC
        total_bytes_to_gc := some 1073741824
        bytes := some 8388608 } := by
  have ht := defaults_trigger 10737418240 3221225472 rfl (Or.inl rfl)
  rw [memory_gc_cycle_of_trigger GcFlags.defaults 10737418240 3221225472 127 8388608
    (by omega) ht.1 ht.2 (by rw [defaults_min_free, BYTES_TO_GC_eq]) (by omega)
    (by rw [BYTES_TO_GC_eq]), defaults_min_free]

/-- C1 (as stated, refuted): with `used = 10 GiB`, `free = 3 GiB` and the default thresholds the
cycle does not make 128 release calls leaving nothing. -/
theorem C1_exact_multiple_not_128_calls :
    ¬ ((memory_gc_cycle GcFlags.defaults (10 * GiB) (3 * GiB)).ReleaseToSystem
          = List.replicate 128 (8 * MiB)
        ∧ (memory_gc_cycle GcFlags.defaults (10 * GiB) (3 * GiB)).bytes = some 0) := by
  rw [ten_GiB, three_GiB, cycle_10GiB_3GiB]
  rintro ⟨-, h⟩
  exact absurd (Option.some.inj h) (by omega)

/-- C1 (amended): with `used = 10 GiB`, `free = 3 GiB`, `min_memory_use_size = 8 GiB`,
`min_memory_free_size_to_release = 2 GiB` the excess is `1 GiB`; the cycle makes exactly 127
release-to-system calls of 8 MiB each, and exactly one chunk (8 MiB) is left unreleased. -/
theorem C1_exact_multiple_127_calls :
    GcFlags.defaults.FLAGS_min_memory_use_size = 8 * GiB
    ∧ GcFlags.defaults.FLAGS_min_memory_free_size_to_release = 2 * GiB
    ∧ (memory_gc_cycle GcFlags.defaults (10 * GiB) (3 * GiB)).total_bytes_to_gc = some (1 * GiB)
    ∧ (memory_gc_cycle GcFlags.defaults (10 * GiB) (3 * GiB)).ReleaseToSystem
        = List.replicate 127 (8 * MiB)
    ∧ (memory_gc_cycle GcFlags.defaults (10 * GiB) (3 * GiB)).bytes = some (8 * MiB) := by
  rw [ten_GiB, three_GiB, cycle_10GiB_3GiB]
  exact ⟨by decide, by decide, rfl, rfl, rfl⟩

/-- C3: with `used = 10 GiB`, `free = 3 GiB + 4 MiB` and the same thresholds the excess is
`1 GiB + 4 MiB`; the cycle makes exactly 128 release-to-system calls of 8 MiB each, and the
trailing 4 MiB are left unreleased. -/
theorem C3_remainder_128_calls :
    GcFlags.defaults.FLAGS_min_memory_use_size = 8 * GiB
    ∧ GcFlags.defaults.FLAGS_min_memory_free_size_to_release = 2 * GiB
    ∧ (memory_gc_cycle GcFlags.defaults (10 * GiB) (3 * GiB + 4 * MiB)).total_bytes_to_gc
        = some (1 * GiB + 4 * MiB)
    ∧ (memory_gc_cycle GcFlags.defaults (10 * GiB) (3 * GiB + 4 * MiB)).ReleaseToSystem
        = List.replicate 128 (8 * MiB)
    ∧ (memory_gc_cycle GcFlags.defaults (10 * GiB) (3 * GiB + 4 * MiB)).bytes
        = some (4 * MiB) := by
  refine ⟨by decide, by decide, ?_⟩
  rw [ten_GiB, three_GiB_four_MiB]
  have ht := defaults_trigger 10737418240 3225419776 rfl (Or.inr rfl)
  rw [memory_gc_cycle_of_trigger GcFlags.defaults 10737418240 3225419776 128 4194304
    (by omega) ht.1 ht.2 (by rw [defaults_min_free, BYTES_TO_GC_eq]) (by omega)
    (by rw [BYTES_TO_GC_eq]; omega), defaults_min_free]
  exact ⟨rfl, rfl, rfl⟩

/-- C2: a cycle makes no release-to-system call (the inner branch is not even entered) whenever
`used + free ≤ min_memory_use_size`, whatever `free` is, and whenever
`free ≤ min_memory_free_size_to_release`, whatever `used + free` is. -/
theorem C2_no_reclamation_below_thresholds (flags : GcFlags) (used_size free_size : Nat)
    (hflag : is_int64 flags.FLAGS_min_memory_free_size_to_release)
    (h : (used_size : Int) + (free_size : Int) ≤ flags.FLAGS_min_memory_use_size
      ∨ (free_size : Int) ≤ flags.FLAGS_min_memory_free_size_to_release) :
    (memory_gc_cycle flags used_size free_size).ReleaseToSystem = []
      ∧ (memory_gc_cycle flags used_size free_size).ReleaseToSystem.length = 0
      ∧ (memory_gc_cycle flags used_size free_size).total_bytes_to_gc = none := by
  have hcycle : memory_gc_cycle flags used_size free_size =
      { ReleaseToSystem := [], total_bytes_to_gc := none, bytes := none } := by
    apply memory_gc_cycle_of_no_trigger
    rcases h with h | h
    · left
      have hle := to_int64_le (to_size_t ((used_size : Int) + (free_size : Int)))
      have hmod : (to_size_t ((used_size : Int) + (free_size : Int)) : Int)
          ≤ (used_size : Int) + (free_size : Int) := by
        unfold to_size_t; omega
      omega
    · right
      obtain ⟨hlo, hhi⟩ := hflag
      unfold to_size_t
      omega
  rw [hcycle]
  exact ⟨rfl, rfl, rfl⟩

/-- C2 at concrete polls: 1 GiB used with 7 GiB free (allocated is exactly the 8 GiB threshold),
and 100 GiB used with exactly 2 GiB free. -/
theorem C2_no_reclamation_witness :
    (memory_gc_cycle GcFlags.defaults 1073741824 7516192768).ReleaseToSystem = []
    ∧ (memory_gc_cycle GcFlags.defaults 107374182400 2147483648).ReleaseToSystem = [] :=
  ⟨(C2_no_reclamation_below_thresholds GcFlags.defaults 1073741824 7516192768
      ⟨by decide, by decide⟩ (Or.inl (by decide))).1,
   (C2_no_reclamation_below_thresholds GcFlags.defaults 107374182400 2147483648
      ⟨by decide, by decide⟩ (Or.inr (by decide))).1⟩

/-- C10: whenever both guards of lines 61-62 pass, the release loop terminates (the model is a
total function), every release-to-system call asks for exactly `BYTES_TO_GC` bytes, the number of
calls is `⌈excess / BYTES_TO_GC⌉ - 1` where `excess` is the value of `total_bytes_to_gc`
(`free - min_memory_free_size_to_release` for a non-negative threshold), and the amount left
unreleased, `excess - BYTES_TO_GC * calls`, is the final value of `bytes`, is positive and is at
most one chunk; nothing is released when `excess ≤ BYTES_TO_GC`. -/
theorem C10_release_loop_count (flags : GcFlags) (used_size free_size : Nat)
    (hfree : is_size_t free_size)
    (hflag : is_int64 flags.FLAGS_min_memory_free_size_to_release)
    (h1 : to_int64 (to_size_t ((used_size : Int) + (free_size : Int)))
      > flags.FLAGS_min_memory_use_size)
    (h2 : free_size > to_size_t flags.FLAGS_min_memory_free_size_to_release) :
    ∃ excess calls : Nat,
      (memory_gc_cycle flags used_size free_size).total_bytes_to_gc = some excess
      ∧ excess = free_size - to_size_t flags.FLAGS_min_memory_free_size_to_release
      ∧ (0 ≤ flags.FLAGS_min_memory_free_size_to_release →
          (excess : Int) = (free_size : Int) - flags.FLAGS_min_memory_free_size_to_release)
      ∧ 0 < excess
      ∧ calls = (excess + BYTES_TO_GC - 1) / BYTES_TO_GC - 1
      ∧ (memory_gc_cycle flags used_size free_size).ReleaseToSystem
          = List.replicate calls BYTES_TO_GC
      ∧ (memory_gc_cycle flags used_size free_size).ReleaseToSystem.length = calls
      ∧ (∀ x ∈ (memory_gc_cycle flags used_size free_size).ReleaseToSystem, x = BYTES_TO_GC)
      ∧ (memory_gc_cycle flags used_size free_size).bytes
          = some (excess - BYTES_TO_GC * calls)
      ∧ BYTES_TO_GC * calls < excess
      ∧ excess - BYTES_TO_GC * calls ≤ BYTES_TO_GC
      ∧ (excess ≤ BYTES_TO_GC → (memory_gc_cycle flags used_size free_size).ReleaseToSystem = []) := by
  have hfree2 : free_size < 18446744073709551616 := hfree
  obtain ⟨hlo, hhi⟩ := hflag
  have hpos : 0 < free_size - to_size_t flags.FLAGS_min_memory_free_size_to_release := by omega
  generalize hEdef : free_size - to_size_t flags.FLAGS_min_memory_free_size_to_release = E at hpos
  have hsplit : E = BYTES_TO_GC * ((E + BYTES_TO_GC - 1) / BYTES_TO_GC - 1)
      + (E - BYTES_TO_GC * ((E + BYTES_TO_GC - 1) / BYTES_TO_GC - 1)) := by
    rw [BYTES_TO_GC_eq]; omega
  have hr0 : 0 < E - BYTES_TO_GC * ((E + BYTES_TO_GC - 1) / BYTES_TO_GC - 1) := by
    rw [BYTES_TO_GC_eq]; omega
  have hr : E - BYTES_TO_GC * ((E + BYTES_TO_GC - 1) / BYTES_TO_GC - 1) ≤ BYTES_TO_GC := by
    rw [BYTES_TO_GC_eq]; omega
  have hcycle := memory_gc_cycle_of_trigger flags used_size free_size
    ((E + BYTES_TO_GC - 1) / BYTES_TO_GC - 1)
    (E - BYTES_TO_GC * ((E + BYTES_TO_GC - 1) / BYTES_TO_GC - 1))
    hfree2 h1 h2 (by rw [hEdef]; exact hsplit) hr0 hr
  rw [hEdef] at hcycle
  refine ⟨E, (E + BYTES_TO_GC - 1) / BYTES_TO_GC - 1, ?_, rfl, ?_, hpos, rfl, ?_, ?_, ?_, ?_, ?_,
    hr, ?_⟩
  · rw [hcycle]
  · intro h0
    have : to_size_t flags.FLAGS_min_memory_free_size_to_release
        = flags.FLAGS_min_memory_free_size_to_release.toNat := by
      unfold to_size_t; omega
    omega
  · rw [hcycle]
  · rw [hcycle]; exact List.length_replicate _ _
  · rw [hcycle]; intro x hx; exact List.eq_of_mem_replicate hx
  · rw [hcycle]
  · omega
  · intro hle
    rw [hcycle]
    have : (E + BYTES_TO_GC - 1) / BYTES_TO_GC - 1 = 0 := by
      rw [BYTES_TO_GC_eq] at *; omega
    rw [this]; rfl

/-- C10 at a concrete poll: 20 GiB used and 2 GiB + 20 MiB free under the default flags give an
excess of 20 MiB, that is two calls and 4 MiB left. -/
theorem C10_release_loop_witness :
    (memory_gc_cycle GcFlags.defaults 21474836480 2168455168).ReleaseToSystem.length = 2
    ∧ (memory_gc_cycle GcFlags.defaults 21474836480 2168455168).bytes = some 4194304 := by
  obtain ⟨excess, calls, -, hexcess, -, -, hcalls, -, hlen, -, hbytes, -⟩ :=
    C10_release_loop_count GcFlags.defaults 21474836480 2168455168
      (show (2168455168 : Nat) < 18446744073709551616 by decide)
      ⟨by decide, by decide⟩ (by decide) (by decide)
  rw [defaults_min_free] at hexcess
  have he : excess = 20971520 := by omega
  have hc : calls = 2 := by rw [hcalls, he, BYTES_TO_GC_eq]
  rw [hlen, hbytes, hc, he, BYTES_TO_GC_eq]
  exact ⟨rfl, rfl⟩

/-! ## The memory guard: lemmas -/

theorem consume_trackers_self (σ : MemTrackerPool) (p : SmartMemTracker) (bytes now : Int) :
    (σ.consume p bytes now).trackers p = (σ.trackers p).consume bytes now := by
  simp [MemTrackerPool.consume]

theorem exceeded_pool (s : RuntimeState) (σ : MemTrackerPool) (bytes now : Int) :
    (s.memory_limit_exceeded σ bytes now).pool
      = (s.resolve σ now).1.consume (s.resolve σ now).2 bytes now := by
  unfold RuntimeState.memory_limit_exceeded
  simp only []
  split <;> rfl

theorem exceeded_ret (s : RuntimeState) (σ : MemTrackerPool) (bytes now : Int) :
    (s.memory_limit_exceeded σ bytes now).ret
      = if (((s.resolve σ now).1.trackers (s.resolve σ now).2).consume bytes now).check_bytes_limit
        then -1 else 0 := by
  unfold RuntimeState.memory_limit_exceeded
  simp only [consume_trackers_self]
  split <;> rfl

theorem exceeded_mem_tracker (s : RuntimeState) (σ : MemTrackerPool) (bytes now : Int) :
    (s.memory_limit_exceeded σ bytes now).state._mem_tracker = some (s.resolve σ now).2 := by
  unfold RuntimeState.memory_limit_exceeded
  simp only []
  split <;> rfl

theorem exceeded_used_bytes (s : RuntimeState) (σ : MemTrackerPool) (bytes now : Int) :
    (s.memory_limit_exceeded σ bytes now).state._used_bytes = s._used_bytes + bytes := by
  unfold RuntimeState.memory_limit_exceeded
  simp only []
  split <;> rfl

theorem exceeded_error_code (s : RuntimeState) (σ : MemTrackerPool) (bytes now : Int)
    (h : (s.memory_limit_exceeded σ bytes now).ret = -1) :
    (s.memory_limit_exceeded σ bytes now).state.error_code = MysqlErrCode.ER_TOO_BIG_SELECT := by
  revert h
  unfold RuntimeState.memory_limit_exceeded
  simp only []
  split
  · intro _; rfl
  · intro h; exact absurd (show (0 : Int) = -1 from h) (by decide)

theorem resolve_bound (s : RuntimeState) (σ : MemTrackerPool) (now : Int) (p : SmartMemTracker)
    (h : s._mem_tracker = some p) : s.resolve σ now = (σ, p) := by
  unfold RuntimeState.resolve; rw [h]

theorem resolve_unbound (s : RuntimeState) (σ : MemTrackerPool) (now : Int)
    (h : s._mem_tracker = none) : s.resolve σ now = σ.get_mem_tracker s._log_id now := by
  unfold RuntimeState.resolve; rw [h]

theorem release_mem_tracker (s : RuntimeState) (σ : MemTrackerPool) (bytes now : Int) :
    (s.memory_limit_release σ bytes now).state._mem_tracker = s._mem_tracker := rfl

theorem release_used_bytes (s : RuntimeState) (σ : MemTrackerPool) (bytes now : Int) :
    (s.memory_limit_release σ bytes now).state._used_bytes = max 0 (s._used_bytes - bytes) := by
  unfold RuntimeState.memory_limit_release
  simp only []
  split <;> omega

theorem run_nil (x : MemTrackerPool × RuntimeState) : run [] x = x := rfl

theorem run_cons (op : GuardOp) (ops : List GuardOp) (x : MemTrackerPool × RuntimeState) :
    run (op :: ops) x = run ops (step x op) := rfl

theorem run_append (ops₁ ops₂ : List GuardOp) (x : MemTrackerPool × RuntimeState) :
    run (ops₁ ++ ops₂) x = run ops₂ (run ops₁ x) := by
  unfold run; rw [List.foldl_append]

/-- A property of the guard that every operation preserves holds after every sequence. -/
theorem run_invariant (P : RuntimeState → Prop)
    (hstep : ∀ (x : MemTrackerPool × RuntimeState) (op : GuardOp),
      op.nonneg → P x.2 → P (step x op).2)
    (ops : List GuardOp) : ∀ x : MemTrackerPool × RuntimeState,
      (∀ op ∈ ops, op.nonneg) → P x.2 → P (run ops x).2 := by
  induction ops with
  | nil => intro x _ h; exact h
  | cons op ops ih =>
    intro x hops h
    rw [run_cons]
    exact ih _ (fun o ho => hops o (List.mem_cons_of_mem _ ho))
      (hstep x op (hops op (List.mem_cons_self _ _)) h)

/-- An unbound guard has a local total of zero: every charge binds the guard, and an uncharge
of a non-negative count keeps a zero total at zero. -/
theorem step_unbound_zero (x : MemTrackerPool × RuntimeState) (op : GuardOp)
    (hop : op.nonneg) (h : x.2._mem_tracker = none → x.2._used_bytes = 0) :
    (step x op).2._mem_tracker = none → (step x op).2._used_bytes = 0 := by
  cases op with
  | charge bytes now =>
    intro hnone
    simp only [step, exceeded_mem_tracker] at hnone
    exact absurd hnone (by simp)
  | uncharge bytes now =>
    intro hnone
    simp only [step, release_mem_tracker] at hnone
    simp only [step, release_used_bytes]
    have h0 := h hnone
    have hb : 0 ≤ bytes := hop
    rw [h0]; omega
  | others f => exact h

theorem step_used_nonneg (x : MemTrackerPool × RuntimeState) (op : GuardOp)
    (hop : op.nonneg) (h : 0 ≤ x.2._used_bytes) : 0 ≤ (step x op).2._used_bytes := by
  cases op with
  | charge bytes now =>
    simp only [step, exceeded_used_bytes]
    have hb : 0 ≤ bytes := hop
    omega
  | uncharge bytes now =>
    simp only [step, release_used_bytes]
    omega
  | others f => exact h

theorem step_keeps_binding (p : SmartMemTracker) (x : MemTrackerPool × RuntimeState)
    (op : GuardOp) (h : x.2._mem_tracker = some p) : (step x op).2._mem_tracker = some p := by
  cases op with
  | charge bytes now =>
    simp only [step, exceeded_mem_tracker, resolve_bound _ _ _ p h]
  | uncharge bytes now =>
    simp only [step, release_mem_tracker, h]
  | others f => exact h

theorem exceeded_consumed (s : RuntimeState) (σ : MemTrackerPool) (bytes now : Int) :
    ((s.memory_limit_exceeded σ bytes now).pool.trackers (s.resolve σ now).2).bytes_consumed
      = ((s.resolve σ now).1.trackers (s.resolve σ now).2).bytes_consumed + bytes := by
  rw [exceeded_pool, consume_trackers_self]; rfl

theorem exceeded_limit (s : RuntimeState) (σ : MemTrackerPool) (bytes now : Int) :
    ((s.memory_limit_exceeded σ bytes now).pool.trackers (s.resolve σ now).2).bytes_limit
      = ((s.resolve σ now).1.trackers (s.resolve σ now).2).bytes_limit := by
  rw [exceeded_pool, consume_trackers_self]; rfl

theorem exceeded_check (s : RuntimeState) (σ : MemTrackerPool) (bytes now : Int) :
    ((s.memory_limit_exceeded σ bytes now).pool.trackers (s.resolve σ now).2).check_bytes_limit
        = true ↔
      ((s.resolve σ now).1.trackers (s.resolve σ now).2).bytes_consumed + bytes
        > ((s.resolve σ now).1.trackers (s.resolve σ now).2).bytes_limit := by
  unfold MemTracker.check_bytes_limit
  rw [exceeded_consumed, exceeded_limit, decide_eq_true_eq]

theorem exceeded_ret_iff (s : RuntimeState) (σ : MemTrackerPool) (bytes now : Int) :
    (s.memory_limit_exceeded σ bytes now).ret = -1 ↔
      ((s.resolve σ now).1.trackers (s.resolve σ now).2).bytes_consumed + bytes
        > ((s.resolve σ now).1.trackers (s.resolve σ now).2).bytes_limit := by
  rw [exceeded_ret]
  simp only [MemTracker.consume, MemTracker.check_bytes_limit, decide_eq_true_eq]
  split
  · rename_i h; exact ⟨fun _ => h, fun _ => rfl⟩
  · rename_i h; exact ⟨fun h0 => absurd h0 (by decide), fun h1 => absurd h1 h⟩

theorem exceeded_ret_zero_iff (s : RuntimeState) (σ : MemTrackerPool) (bytes now : Int) :
    (s.memory_limit_exceeded σ bytes now).ret = 0 ↔
      ¬ (((s.resolve σ now).1.trackers (s.resolve σ now).2).bytes_consumed + bytes
        > ((s.resolve σ now).1.trackers (s.resolve σ now).2).bytes_limit) := by
  rw [exceeded_ret]
  simp only [MemTracker.consume, MemTracker.check_bytes_limit, decide_eq_true_eq]
  split
  · rename_i h; exact ⟨fun h0 => absurd h0 (by decide), fun h1 => absurd h h1⟩
  · rename_i h; exact ⟨fun _ => h, fun _ => rfl⟩

theorem get_mem_tracker_calls (σ : MemTrackerPool) (log_id : Nat) (now : Int) :
    (σ.get_mem_tracker log_id now).1.calls = σ.calls ++ [Call.get_mem_tracker log_id] := by
  unfold MemTrackerPool.get_mem_tracker
  split <;> rfl

theorem run_keeps_binding (p : SmartMemTracker) (ops : List GuardOp) :
    ∀ x : MemTrackerPool × RuntimeState,
      x.2._mem_tracker = some p → (run ops x).2._mem_tracker = some p := by
  induction ops with
  | nil => intro x h; exact h
  | cons op ops ih =>
    intro x h
    rw [run_cons]
    exact ih _ (step_keeps_binding p x op h)

theorem exceeded_bound_pool (s : RuntimeState) (σ : MemTrackerPool) (bytes now : Int)
    (p : SmartMemTracker) (h : s._mem_tracker = some p) :
    (s.memory_limit_exceeded σ bytes now).pool = σ.consume p bytes now := by
  rw [exceeded_pool, resolve_bound s σ now p h]

theorem release_bound_pool (s : RuntimeState) (σ : MemTrackerPool) (bytes now : Int)
    (p : SmartMemTracker) (h : s._mem_tracker = some p) :
    (s.memory_limit_release σ bytes now).pool = σ.release p bytes now := by
  unfold RuntimeState.memory_limit_release; simp only [h]

theorem release_unbound_pool (s : RuntimeState) (σ : MemTrackerPool) (bytes now : Int)
    (h : s._mem_tracker = none) :
    (s.memory_limit_release σ bytes now).pool = σ := by
  unfold RuntimeState.memory_limit_release; simp only [h]

theorem release_pool_map (s : RuntimeState) (σ : MemTrackerPool) (bytes now : Int) :
    (s.memory_limit_release σ bytes now).pool._mem_tracker_pool = σ._mem_tracker_pool := by
  unfold RuntimeState.memory_limit_release
  simp only []
  split <;> rfl

/-! ## The memory guard: claims -/

/-- C4: for a non-negative byte count, `memory_limit_exceeded` returns `-1` exactly when the
consumed count of the guard's tracker after adding `bytes` is strictly above its limit, that is,
exactly when `check_bytes_limit()` is true after the consume, and returns `0` otherwise.  The
tracker is the one the guard is bound to once lines 142-147 have run. -/
theorem C4_breach_iff_over_limit_after_consume (s : RuntimeState) (σ : MemTrackerPool)
    (bytes now : Int) (hb : 0 ≤ bytes) :
    ((s.memory_limit_exceeded σ bytes now).pool.trackers (s.resolve σ now).2).bytes_consumed
        = ((s.resolve σ now).1.trackers (s.resolve σ now).2).bytes_consumed + bytes
    ∧ ((s.memory_limit_exceeded σ bytes now).pool.trackers (s.resolve σ now).2).bytes_limit
        = ((s.resolve σ now).1.trackers (s.resolve σ now).2).bytes_limit
    ∧ ((s.memory_limit_exceeded σ bytes now).ret = -1 ↔
        ((s.resolve σ now).1.trackers (s.resolve σ now).2).bytes_consumed + bytes
          > ((s.resolve σ now).1.trackers (s.resolve σ now).2).bytes_limit)
    ∧ ((s.memory_limit_exceeded σ bytes now).ret = -1 ↔
        ((s.memory_limit_exceeded σ bytes now).pool.trackers
          (s.resolve σ now).2).check_bytes_limit = true)
    ∧ ((s.memory_limit_exceeded σ bytes now).ret = 0 ↔
        ¬ (((s.resolve σ now).1.trackers (s.resolve σ now).2).bytes_consumed + bytes
          > ((s.resolve σ now).1.trackers (s.resolve σ now).2).bytes_limit))
    ∧ (s.memory_limit_exceeded σ bytes now).state._mem_tracker = some (s.resolve σ now).2 := by
  have _ := hb
  exact ⟨exceeded_consumed s σ bytes now, exceeded_limit s σ bytes now,
    exceeded_ret_iff s σ bytes now,
    (exceeded_ret_iff s σ bytes now).trans (exceeded_check s σ bytes now).symm,
    exceeded_ret_zero_iff s σ bytes now, exceeded_mem_tracker s σ bytes now⟩

/-- C4 at a concrete call: a fresh guard charging 150 bytes against a limit of 100 gets `-1`,
although nothing was consumed before the call. -/
theorem C4_breach_witness :
    (fresh_guard.memory_limit_exceeded empty_pool 150 7).ret = -1 :=
  (C4_breach_iff_over_limit_after_consume fresh_guard empty_pool 150 7 (by decide)).2.2.1.mpr
    (by decide)

/-- C5: a charge of a non-negative count that takes the tracker's consumed count strictly above
its limit returns `-1` with `error_code = ER_TOO_BIG_SELECT`, and nothing is rolled back: the
tracker's consumed count is its value before the consume plus `bytes` (still above the limit), and
the guard's `_used_bytes` is its value before the call plus `bytes`. -/
theorem C5_breach_not_rolled_back (s : RuntimeState) (σ : MemTrackerPool)
    (bytes now : Int) (hb : 0 ≤ bytes)
    (hover : ((s.resolve σ now).1.trackers (s.resolve σ now).2).bytes_consumed + bytes
      > ((s.resolve σ now).1.trackers (s.resolve σ now).2).bytes_limit) :
    (s.memory_limit_exceeded σ bytes now).ret = -1
    ∧ (s.memory_limit_exceeded σ bytes now).state.error_code = MysqlErrCode.ER_TOO_BIG_SELECT
    ∧ ((s.memory_limit_exceeded σ bytes now).pool.trackers (s.resolve σ now).2).bytes_consumed
        = ((s.resolve σ now).1.trackers (s.resolve σ now).2).bytes_consumed + bytes
    ∧ (∀ p, s._mem_tracker = some p →
        ((s.memory_limit_exceeded σ bytes now).pool.trackers p).bytes_consumed
          = (σ.trackers p).bytes_consumed + bytes)
    ∧ ((s.memory_limit_exceeded σ bytes now).pool.trackers
        (s.resolve σ now).2).check_bytes_limit = true
    ∧ (s.memory_limit_exceeded σ bytes now).state._used_bytes = s._used_bytes + bytes := by
  have _ := hb
  have hret : (s.memory_limit_exceeded σ bytes now).ret = -1 :=
    (exceeded_ret_iff s σ bytes now).mpr hover
  refine ⟨hret, exceeded_error_code s σ bytes now hret, exceeded_consumed s σ bytes now, ?_,
    (exceeded_check s σ bytes now).mpr hover, exceeded_used_bytes s σ bytes now⟩
  intro p hp
  have h1 := exceeded_consumed s σ bytes now
  rw [resolve_bound s σ now p hp] at h1
  exact h1

/-- C5 at a concrete call: a fresh guard charging 150 bytes against a limit of 100 fails and
leaves 150 bytes consumed on the tracker and 150 bytes in its local total. -/
theorem C5_breach_witness :
    (fresh_guard.memory_limit_exceeded empty_pool 150 7).state.error_code
        = MysqlErrCode.ER_TOO_BIG_SELECT
    ∧ ((fresh_guard.memory_limit_exceeded empty_pool 150 7).pool.trackers 0).bytes_consumed = 150
    ∧ (fresh_guard.memory_limit_exceeded empty_pool 150 7).state._used_bytes = 150 :=
  have h := C5_breach_not_rolled_back fresh_guard empty_pool 150 7 (by decide) (by decide)
  ⟨h.2.1, h.2.2.1, h.2.2.2.2.2⟩

/-- C7: in every guard state reached from a guard with no tracker bound and a local total of 0
by charges and uncharges of non-negative counts (with anything done by other threads in between),
if no tracker is bound then `memory_limit_release(bytes)` with `bytes ≥ 0` does nothing: the
shared state, with its record of calls and every tracker, is unchanged (no `release` is called),
the guard is unchanged (still unbound, `_used_bytes` the same), and `0` is returned. -/
theorem C7_release_unbound_noop (σ₀ : MemTrackerPool) (s₀ : RuntimeState) (ops : List GuardOp)
    (hfresh : s₀._mem_tracker = none) (hzero : s₀._used_bytes = 0)
    (hops : ∀ op ∈ ops, op.nonneg)
    (hunbound : (run ops (σ₀, s₀)).2._mem_tracker = none)
    (bytes now : Int) (hb : 0 ≤ bytes) :
    (((run ops (σ₀, s₀)).2).memory_limit_release (run ops (σ₀, s₀)).1 bytes now).pool
        = (run ops (σ₀, s₀)).1
    ∧ (((run ops (σ₀, s₀)).2).memory_limit_release (run ops (σ₀, s₀)).1 bytes now).pool.calls
        = (run ops (σ₀, s₀)).1.calls
    ∧ (((run ops (σ₀, s₀)).2).memory_limit_release (run ops (σ₀, s₀)).1 bytes now).state._mem_tracker
        = none
    ∧ (((run ops (σ₀, s₀)).2).memory_limit_release (run ops (σ₀, s₀)).1 bytes now).state._used_bytes
        = (run ops (σ₀, s₀)).2._used_bytes
    ∧ (((run ops (σ₀, s₀)).2).memory_limit_release (run ops (σ₀, s₀)).1 bytes now).state
        = (run ops (σ₀, s₀)).2
    ∧ (((run ops (σ₀, s₀)).2).memory_limit_release (run ops (σ₀, s₀)).1 bytes now).ret = 0 := by
  have hinv : (run ops (σ₀, s₀)).2._mem_tracker = none → (run ops (σ₀, s₀)).2._used_bytes = 0 :=
    run_invariant (fun s => s._mem_tracker = none → s._used_bytes = 0)
      step_unbound_zero ops (σ₀, s₀) hops (fun _ => hzero)
  have h0 := hinv hunbound
  generalize run ops (σ₀, s₀) = x at hunbound h0
  obtain ⟨σ, s⟩ := x
  simp only at hunbound h0
  have hpool : (s.memory_limit_release σ bytes now).pool = σ := by
    unfold RuntimeState.memory_limit_release; simp only [hunbound]
  have hused : (s.memory_limit_release σ bytes now).state._used_bytes = s._used_bytes := by
    rw [release_used_bytes, h0]; omega
  have hstate : (s.memory_limit_release σ bytes now).state = s := by
    cases s with
    | mk log_id tracker used code msg =>
      simp only at hused
      unfold RuntimeState.memory_limit_release at hused ⊢
      simp only at hused ⊢
      rw [hused]
  have _ := hfresh
  refine ⟨hpool, by rw [hpool], ?_, hused, hstate, rfl⟩
  rw [release_mem_tracker]; exact hunbound

/-- C7 at a concrete run: a fresh guard that has only uncharged 5 bytes is still unbound, and
uncharging 9 more bytes leaves everything as it is. -/
theorem C7_release_unbound_witness :
    ((run [GuardOp.uncharge 5 1] (empty_pool, fresh_guard)).2.memory_limit_release
        (run [GuardOp.uncharge 5 1] (empty_pool, fresh_guard)).1 9 2).state
      = (run [GuardOp.uncharge 5 1] (empty_pool, fresh_guard)).2 :=
  (C7_release_unbound_noop empty_pool fresh_guard [GuardOp.uncharge 5 1] rfl rfl
    (fun op hop => by
      rw [List.mem_singleton] at hop
      subst hop
      show (0 : Int) ≤ 5
      decide)
    rfl 9 2 (by decide)).2.2.2.2.1

/-- C8: `memory_limit_exceeded(bytes)` sets `_used_bytes` to `_used_bytes + bytes`,
`memory_limit_release(bytes)` sets it to `max 0 (_used_bytes - bytes)`, and after every call of
every sequence of charges and uncharges of non-negative counts that starts from a total of 0 the
total is not negative. -/
theorem C8_used_bytes_clamped_sum (σ₀ : MemTrackerPool) (s₀ : RuntimeState)
    (ops : List GuardOp) (hzero : s₀._used_bytes = 0) (hops : ∀ op ∈ ops, op.nonneg) :
    (∀ (s : RuntimeState) (σ : MemTrackerPool) (bytes now : Int),
        (s.memory_limit_exceeded σ bytes now).state._used_bytes = s._used_bytes + bytes)
    ∧ (∀ (s : RuntimeState) (σ : MemTrackerPool) (bytes now : Int),
        (s.memory_limit_release σ bytes now).state._used_bytes = max 0 (s._used_bytes - bytes))
    ∧ (∀ n : Nat, 0 ≤ (run (ops.take n) (σ₀, s₀)).2._used_bytes) := by
  refine ⟨exceeded_used_bytes, release_used_bytes, ?_⟩
  intro n
  exact run_invariant (fun s => 0 ≤ s._used_bytes) step_used_nonneg (ops.take n) (σ₀, s₀)
    (fun op hop => hops op (List.mem_of_mem_take hop)) (by show 0 ≤ s₀._used_bytes; omega)

/-- C8 at a concrete run: charge 10, uncharge 25 (clamped to 0), charge 3 gives a total of 3. -/
theorem C8_used_bytes_witness :
    (run [GuardOp.charge 10 1, GuardOp.uncharge 25 2, GuardOp.charge 3 3]
        (empty_pool, fresh_guard)).2._used_bytes = 3
    ∧ 0 ≤ (run (([GuardOp.charge 10 1, GuardOp.uncharge 25 2, GuardOp.charge 3 3]).take 2)
        (empty_pool, fresh_guard)).2._used_bytes :=
  ⟨by decide,
   (C8_used_bytes_clamped_sum empty_pool fresh_guard
      [GuardOp.charge 10 1, GuardOp.uncharge 25 2, GuardOp.charge 3 3] rfl
      (fun op hop => by
        simp only [List.mem_cons, List.mem_singleton, List.not_mem_nil, or_false] at hop
        rcases hop with h | h | h <;> subst h
        · show (0 : Int) ≤ 10
          decide
        · show (0 : Int) ≤ 25
          decide
        · show (0 : Int) ≤ 3
          decide)).2.2 2⟩

/-- C9: the guard resolves its tracker at most once.  After any call of `memory_limit_exceeded`
the guard is bound.  A guard that was unbound gets the tracker that `get_mem_tracker` returns for
its log id.  A guard already bound to `p` stays bound to `p`, makes no call on the pool (the only
call recorded is `consume` on `p`), and leaves the pool map as it is; this holds as well when the
pool has erased the guard's entry in the meantime, and after any sequence of charges, uncharges
and activity of other threads.  `memory_limit_release` never changes the binding nor the pool
map, and releases on the bound tracker only. -/
theorem C9_tracker_resolved_once (s : RuntimeState) (σ : MemTrackerPool) (bytes now : Int) :
    (∃ p, (s.memory_limit_exceeded σ bytes now).state._mem_tracker = some p)
    ∧ (s._mem_tracker = none →
        (s.memory_limit_exceeded σ bytes now).state._mem_tracker
            = some (σ.get_mem_tracker s._log_id now).2
        ∧ (s.memory_limit_exceeded σ bytes now).pool.calls
            = σ.calls ++ [Call.get_mem_tracker s._log_id,
                Call.consume (σ.get_mem_tracker s._log_id now).2 bytes])
    ∧ (∀ p, s._mem_tracker = some p →
        (s.memory_limit_exceeded σ bytes now).state._mem_tracker = some p
        ∧ (s.memory_limit_exceeded σ bytes now).pool.calls = σ.calls ++ [Call.consume p bytes]
        ∧ (s.memory_limit_exceeded σ bytes now).pool._mem_tracker_pool = σ._mem_tracker_pool
        ∧ (s.memory_limit_exceeded σ bytes now).pool.next_tracker = σ.next_tracker
        ∧ (s.memory_limit_exceeded σ bytes now).pool.trackers p
            = (σ.trackers p).consume bytes now)
    ∧ (∀ p, s._mem_tracker = some p →
        (s.memory_limit_exceeded (σ.erase s._log_id) bytes now).state._mem_tracker = some p
        ∧ (s.memory_limit_exceeded (σ.erase s._log_id) bytes now).pool.calls
            = σ.calls ++ [Call.consume p bytes]
        ∧ (s.memory_limit_exceeded (σ.erase s._log_id) bytes now).pool._mem_tracker_pool
            = (σ.erase s._log_id)._mem_tracker_pool
        ∧ (s.memory_limit_exceeded (σ.erase s._log_id) bytes now).pool.trackers p
            = (σ.trackers p).consume bytes now)
    ∧ (∀ p (ops : List GuardOp), s._mem_tracker = some p →
        (run ops (σ, s)).2._mem_tracker = some p)
    ∧ (s.memory_limit_release σ bytes now).state._mem_tracker = s._mem_tracker
    ∧ (s.memory_limit_release σ bytes now).pool._mem_tracker_pool = σ._mem_tracker_pool
    ∧ (s._mem_tracker = none → (s.memory_limit_release σ bytes now).pool = σ)
    ∧ (∀ p, s._mem_tracker = some p →
        (s.memory_limit_release σ bytes now).pool.calls = σ.calls ++ [Call.release p bytes]
        ∧ (s.memory_limit_release σ bytes now).pool.trackers p
            = (σ.trackers p).release bytes now) := by
  refine ⟨⟨_, exceeded_mem_tracker s σ bytes now⟩, ?_, ?_, ?_, ?_, release_mem_tracker s σ bytes now,
    release_pool_map s σ bytes now, release_unbound_pool s σ bytes now, ?_⟩
  · intro h
    rw [exceeded_mem_tracker, exceeded_pool, resolve_unbound s σ now h]
    refine ⟨rfl, ?_⟩
    show (σ.get_mem_tracker s._log_id now).1.calls ++ [_] = _
    rw [get_mem_tracker_calls, List.append_assoc]; rfl
  · intro p h
    rw [exceeded_mem_tracker, exceeded_bound_pool s σ bytes now p h, resolve_bound s σ now p h]
    exact ⟨rfl, rfl, rfl, rfl, consume_trackers_self σ p bytes now⟩
  · intro p h
    rw [exceeded_mem_tracker, exceeded_bound_pool s _ bytes now p h, resolve_bound s _ now p h]
    exact ⟨rfl, rfl, rfl, consume_trackers_self _ p bytes now⟩
  · intro p ops h
    exact run_keeps_binding p ops (σ, s) h
  · intro p h
    rw [release_bound_pool s σ bytes now p h]
    refine ⟨rfl, ?_⟩
    simp [MemTrackerPool.release]

/-- C9 at a concrete run: a fresh guard is bound to tracker 0 by its first charge; after the
pool has erased the entry of log id 42, a later charge and uncharge still use tracker 0. -/
theorem C9_tracker_resolved_witness :
    (step (empty_pool, fresh_guard) (GuardOp.charge 10 1)).2._mem_tracker = some 0
    ∧ (run [GuardOp.others (fun σ => σ.erase 42), GuardOp.charge 5 2, GuardOp.uncharge 3 3]
        (step (empty_pool, fresh_guard) (GuardOp.charge 10 1))).2._mem_tracker = some 0 :=
  ⟨rfl,
   (C9_tracker_resolved_once (step (empty_pool, fresh_guard) (GuardOp.charge 10 1)).2
      (step (empty_pool, fresh_guard) (GuardOp.charge 10 1)).1 0 0).2.2.2.2.1 0
      [GuardOp.others (fun σ => σ.erase 42), GuardOp.charge 5 2, GuardOp.uncharge 3 3] rfl⟩

/-! ## Idle eviction: lemmas -/

theorem mem_map_assign_self (m : List (Nat × SmartMemTracker)) (k : Nat) (v : SmartMemTracker) :
    (k, v) ∈ map_assign m k v := by
  induction m with
  | nil => simp [map_assign]
  | cons e rest ih =>
    unfold map_assign
    split
    · exact List.mem_cons_self _ _
    · split
      · exact List.mem_cons_self _ _
      · exact List.mem_cons_of_mem _ ih

theorem mem_map_assign_of_ne (m : List (Nat × SmartMemTracker)) (k : Nat) (v : SmartMemTracker)
    (c : Nat × SmartMemTracker) (hc : c ∈ m) (hne : c.1 ≠ k) : c ∈ map_assign m k v := by
  induction m with
  | nil => exact absurd hc (List.not_mem_nil _)
  | cons e rest ih =>
    unfold map_assign
    split
    · exact List.mem_cons_of_mem _ hc
    · split
      · rename_i hk
        rcases List.mem_cons.mp hc with h | h
        · exact absurd (by rw [h]; exact hk.symm) hne
        · exact List.mem_cons_of_mem _ h
      · rcases List.mem_cons.mp hc with h | h
        · rw [h]; exact List.mem_cons_self _ _
        · exact List.mem_cons_of_mem _ (ih h)

theorem mem_of_mem_map_assign (m : List (Nat × SmartMemTracker)) (k : Nat) (v : SmartMemTracker)
    (c : Nat × SmartMemTracker) (hc : c ∈ map_assign m k v) : c = (k, v) ∨ c ∈ m := by
  induction m with
  | nil =>
    simp only [map_assign, List.mem_singleton] at hc
    exact Or.inl hc
  | cons e rest ih =>
    unfold map_assign at hc
    split at hc
    · rcases List.mem_cons.mp hc with h | h
      · exact Or.inl h
      · exact Or.inr h
    · split at hc
      · rcases List.mem_cons.mp hc with h | h
        · exact Or.inl h
        · exact Or.inr (List.mem_cons_of_mem _ h)
      · rcases List.mem_cons.mp hc with h | h
        · exact Or.inr (by rw [h]; exact List.mem_cons_self _ _)
        · rcases ih h with h' | h'
          · exact Or.inl h'
          · exact Or.inr (List.mem_cons_of_mem _ h')

/-- Every candidate of the traversal was already a candidate or is a pool entry that was idle
when visited. -/
theorem scan_sound (interval : Int) (trackers : SmartMemTracker → MemTracker) (clock : Nat → Int)
    (entries : List (Nat × SmartMemTracker)) :
    ∀ (acc : List (Nat × SmartMemTracker)) (c : Nat × SmartMemTracker),
      c ∈ scan interval trackers clock entries acc →
      c ∈ acc ∨ (c ∈ entries ∧ idle interval (clock c.1) (trackers c.2).last_active_time = true) := by
  induction entries with
  | nil => intro acc c hc; exact Or.inl hc
  | cons e rest ih =>
    intro acc c hc
    unfold scan at hc
    split at hc
    · rename_i hidle
      rcases ih _ c hc with h | h
      · rcases mem_of_mem_map_assign acc e.1 e.2 c h with h' | h'
        · right
          have hce : c = e := h'
          rw [hce]
          exact ⟨List.mem_cons_self _ _, hidle⟩
        · exact Or.inl h'
      · exact Or.inr ⟨List.mem_cons_of_mem _ h.1, h.2⟩
    · rcases ih _ c hc with h | h
      · exact Or.inl h
      · exact Or.inr ⟨List.mem_cons_of_mem _ h.1, h.2⟩

/-- A candidate whose key does not occur among the entries still to visit stays a candidate. -/
theorem scan_keeps (interval : Int) (trackers : SmartMemTracker → MemTracker) (clock : Nat → Int)
    (entries : List (Nat × SmartMemTracker)) :
    ∀ (acc : List (Nat × SmartMemTracker)) (c : Nat × SmartMemTracker),
      c ∈ acc → c.1 ∉ entries.map Prod.fst → c ∈ scan interval trackers clock entries acc := by
  induction entries with
  | nil => intro acc c hc _; exact hc
  | cons e rest ih =>
    intro acc c hc hkey
    have hne : c.1 ≠ e.1 := fun h => hkey (by rw [List.map_cons, h]; exact List.mem_cons_self _ _)
    have hrest : c.1 ∉ rest.map Prod.fst := fun h =>
      hkey (by rw [List.map_cons]; exact List.mem_cons_of_mem _ h)
    unfold scan
    split
    · exact ih _ c (mem_map_assign_of_ne acc e.1 e.2 c hc hne) hrest
    · exact ih _ c hc hrest

/-- With unique keys, every pool entry that is idle when visited becomes a candidate. -/
theorem scan_complete (interval : Int) (trackers : SmartMemTracker → MemTracker)
    (clock : Nat → Int) (entries : List (Nat × SmartMemTracker)) :
    ∀ (acc : List (Nat × SmartMemTracker)) (c : Nat × SmartMemTracker),
      (entries.map Prod.fst).Nodup → c ∈ entries →
      idle interval (clock c.1) (trackers c.2).last_active_time = true →
      c ∈ scan interval trackers clock entries acc := by
  induction entries with
  | nil => intro acc c _ hc _; exact absurd hc (List.not_mem_nil _)
  | cons e rest ih =>
    intro acc c hnd hc hidle
    rw [List.map_cons, List.nodup_cons] at hnd
    rcases List.mem_cons.mp hc with h | h
    · subst h
      unfold scan
      rw [if_pos hidle]
      exact scan_keeps interval trackers clock rest _ c (mem_map_assign_self acc c.1 c.2) hnd.1
    · unfold scan
      split
      · exact ih _ c hnd.2 h hidle
      · exact ih _ c hnd.2 h hidle

theorem unique_of_nodup_keys (l : List (Nat × SmartMemTracker)) (hnd : (l.map Prod.fst).Nodup)
    (k : Nat) (v w : SmartMemTracker) (hv : (k, v) ∈ l) (hw : (k, w) ∈ l) : v = w := by
  induction l with
  | nil => exact absurd hv (List.not_mem_nil _)
  | cons e rest ih =>
    rw [List.map_cons, List.nodup_cons] at hnd
    have hkey : ∀ u, (k, u) ∈ rest → k ∈ rest.map Prod.fst := fun u hu =>
      List.mem_map.mpr ⟨(k, u), hu, rfl⟩
    rcases List.mem_cons.mp hv with h1 | h1 <;> rcases List.mem_cons.mp hw with h2 | h2
    · have := h1.trans h2.symm
      exact (Prod.mk.inj this).2
    · exact absurd (by rw [← h1]; exact hkey w h2) hnd.1
    · exact absurd (by rw [← h2]; exact hkey v h1) hnd.1
    · exact ih hnd.2 h1 h2

theorem recheck_trackers (interval : Int) (clock : Nat → Int)
    (need_erase : List (Nat × SmartMemTracker)) :
    ∀ σ : MemTrackerPool, (recheck interval clock need_erase σ).trackers = σ.trackers := by
  induction need_erase with
  | nil => intro σ; rfl
  | cons c rest ih =>
    intro σ
    unfold recheck
    split
    · rw [ih]; rfl
    · rw [ih]

/-- The pool after the recheck: the entries whose key was not erased, a key being erased when
one of its candidates is still idle at the recheck. -/
theorem mem_recheck (interval : Int) (clock : Nat → Int)
    (need_erase : List (Nat × SmartMemTracker)) :
    ∀ (σ : MemTrackerPool) (e : Nat × SmartMemTracker),
      e ∈ (recheck interval clock need_erase σ)._mem_tracker_pool ↔
        e ∈ σ._mem_tracker_pool ∧ ∀ c ∈ need_erase, c.1 = e.1 →
          idle interval (clock c.1) (σ.trackers c.2).last_active_time = false := by
  induction need_erase with
  | nil =>
    intro σ e
    exact ⟨fun h => ⟨h, fun c hc => absurd hc (List.not_mem_nil _)⟩, fun h => h.1⟩
  | cons c rest ih =>
    intro σ e
    unfold recheck
    split
    · rename_i hidle
      rw [ih]
      have herase : e ∈ (σ.erase c.1)._mem_tracker_pool ↔ e ∈ σ._mem_tracker_pool ∧ e.1 ≠ c.1 := by
        simp [MemTrackerPool.erase, List.mem_filter]
      rw [herase]
      constructor
      · rintro ⟨⟨hmem, hne⟩, hrest⟩
        refine ⟨hmem, fun c' hc' hkey => ?_⟩
        rcases List.mem_cons.mp hc' with h | h
        · subst h; exact absurd hkey.symm hne
        · exact hrest c' h hkey
      · rintro ⟨hmem, hall⟩
        refine ⟨⟨hmem, fun hkey => ?_⟩, fun c' hc' hkey => hall c' (List.mem_cons_of_mem _ hc') hkey⟩
        have := hall c (List.mem_cons_self _ _) hkey.symm
        rw [hidle] at this
        exact absurd this (by decide)
    · rename_i hidle
      rw [ih]
      constructor
      · rintro ⟨hmem, hrest⟩
        refine ⟨hmem, fun c' hc' hkey => ?_⟩
        rcases List.mem_cons.mp hc' with h | h
        · subst h; exact Bool.eq_false_iff.mpr hidle
        · exact hrest c' h hkey
      · rintro ⟨hmem, hall⟩
        exact ⟨hmem, fun c' hc' hkey => hall c' (List.mem_cons_of_mem _ hc') hkey⟩

theorem wrap_int64_of_is_int64 (x : Int) (h : is_int64 x) : wrap_int64 x = x := by
  obtain ⟨hlo, hhi⟩ := h
  unfold wrap_int64 to_int64 to_size_t
  split <;> omega

/-- For a flag of at most 9223372036854 seconds in absolute value the products do not overflow. -/
theorem idle_threshold_plain (interval : Int)
    (hlo : -9223372036854 ≤ interval) (hhi : interval ≤ 9223372036854) :
    idle_threshold interval = interval * 1000 * 1000 := by
  unfold idle_threshold
  rw [wrap_int64_of_is_int64 (interval * 1000) ⟨by omega, by omega⟩,
    wrap_int64_of_is_int64 (interval * 1000 * 1000) ⟨by omega, by omega⟩]

/-- Without overflow the test of lines 82 and 87 is the plain comparison. -/
theorem idle_iff (interval now last : Int) (hdiff : is_int64 (now - last))
    (hlo : -9223372036854 ≤ interval) (hhi : interval ≤ 9223372036854) :
    idle interval now last = true ↔ now - last > interval * 1000 * 1000 := by
  unfold idle
  rw [decide_eq_true_iff, wrap_int64_of_is_int64 _ hdiff, idle_threshold_plain interval hlo hhi]

/-- The candidates of the traversal of a pool with unique keys: the entries idle when visited. -/
theorem mem_scan_iff (interval : Int) (trackers : SmartMemTracker → MemTracker)
    (clock : Nat → Int) (entries : List (Nat × SmartMemTracker))
    (hnd : (entries.map Prod.fst).Nodup) (c : Nat × SmartMemTracker) :
    c ∈ scan interval trackers clock entries [] ↔
      c ∈ entries ∧ idle interval (clock c.1) (trackers c.2).last_active_time = true := by
  constructor
  · intro hc
    rcases scan_sound interval trackers clock entries [] c hc with h | h
    · exact absurd h (List.not_mem_nil _)
    · exact h
  · rintro ⟨hmem, hidle⟩
    exact scan_complete interval trackers clock entries [] c hnd hmem hidle

/-- The pool after one cycle: the entries of the pool at the recheck whose key has no entry at
the traversal that was idle when visited and is still idle at the recheck. -/
theorem mem_cycle_iff (interval : Int) (σ₁ σ₂ : MemTrackerPool) (clock₁ clock₂ : Nat → Int)
    (hnd : (σ₁._mem_tracker_pool.map Prod.fst).Nodup) (log_id : Nat) (p : SmartMemTracker) :
    (log_id, p) ∈ (tracker_gc_cycle interval σ₁ clock₁ σ₂ clock₂)._mem_tracker_pool ↔
      (log_id, p) ∈ σ₂._mem_tracker_pool ∧
      ¬ ∃ q, (log_id, q) ∈ σ₁._mem_tracker_pool
        ∧ idle interval (clock₁ log_id) (σ₁.trackers q).last_active_time = true
        ∧ idle interval (clock₂ log_id) (σ₂.trackers q).last_active_time = true := by
  unfold tracker_gc_cycle
  rw [mem_recheck]
  constructor
  · rintro ⟨hmem, hall⟩
    refine ⟨hmem, ?_⟩
    rintro ⟨q, hq, hs, hr⟩
    have hc := (mem_scan_iff interval σ₁.trackers clock₁ _ hnd (log_id, q)).mpr ⟨hq, hs⟩
    have := hall (log_id, q) hc rfl
    rw [hr] at this
    exact absurd this (by decide)
  · rintro ⟨hmem, hnone⟩
    refine ⟨hmem, fun c hc hkey => ?_⟩
    obtain ⟨k, q⟩ := c
    have hk : k = log_id := hkey
    subst hk
    have hc' := (mem_scan_iff interval σ₁.trackers clock₁ _ hnd (k, q)).mp hc
    cases hr : idle interval (clock₂ k) (σ₂.trackers q).last_active_time with
    | false => rfl
    | true => exact absurd ⟨q, hc'.1, hc'.2, hr⟩ hnone

/-- The entry `(log_id, p)`, registered at the traversal and at the recheck, is gone after the
cycle exactly when its tracker is idle at both checks. -/
theorem cycle_erases_iff (interval : Int) (σ₁ σ₂ : MemTrackerPool) (clock₁ clock₂ : Nat → Int)
    (log_id : Nat) (p : SmartMemTracker)
    (hnd : (σ₁._mem_tracker_pool.map Prod.fst).Nodup)
    (h₁ : (log_id, p) ∈ σ₁._mem_tracker_pool) (h₂ : (log_id, p) ∈ σ₂._mem_tracker_pool) :
    (log_id, p) ∉ (tracker_gc_cycle interval σ₁ clock₁ σ₂ clock₂)._mem_tracker_pool ↔
      (idle interval (clock₁ log_id) (σ₁.trackers p).last_active_time = true
        ∧ idle interval (clock₂ log_id) (σ₂.trackers p).last_active_time = true) := by
  rw [mem_cycle_iff interval σ₁ σ₂ clock₁ clock₂ hnd]
  constructor
  · intro hnot
    by_contra hcon
    apply hnot
    refine ⟨h₂, ?_⟩
    rintro ⟨q, hq, hs, hr⟩
    have hqp : q = p := unique_of_nodup_keys _ hnd log_id q p hq h₁
    subst hqp
    exact hcon ⟨hs, hr⟩
  · rintro ⟨hs, hr⟩ ⟨-, hnone⟩
    exact hnone ⟨p, h₁, hs, hr⟩

theorem example_scan_pool_nodup :
    (example_scan_pool._mem_tracker_pool.map Prod.fst).Nodup := by decide

/-! ## Idle eviction: claims -/

/-- C6 (as stated, refuted): with a threshold of 60 s, tracker 1 was last active at time 0, is
visited by the traversal at 100 s, is refreshed by a `consume` at 100.000001 s, between the
traversal and the recheck, and the recheck reads the clock at 161.000002 s.  The refreshed
tracker is then not kept: its entry is erased. -/
theorem C6_refreshed_tracker_erased :
    ¬ (((2, 1) ∈ example_scan_pool._mem_tracker_pool
          ∧ (2, 1) ∈ example_recheck_pool._mem_tracker_pool
          ∧ example_recheck_pool.trackers 1
              = (example_scan_pool.trackers 1).consume 10 100000001
          ∧ (100000000 : Int) ≤ 100000001 ∧ (100000001 : Int) ≤ 161000002) →
        (2, 1) ∈ (tracker_gc_cycle 60 example_scan_pool (fun _ => 100000000)
          example_recheck_pool (fun _ => 161000002))._mem_tracker_pool) := by
  intro h
  have hmem := h ⟨by decide, by decide, by decide, by decide, by decide⟩
  exact (cycle_erases_iff 60 example_scan_pool example_recheck_pool (fun _ => 100000000)
    (fun _ => 161000002) 2 1 example_scan_pool_nodup (by decide) (by decide)).mpr
    ⟨by decide, by decide⟩ hmem

/-- C6 (amended): one eviction cycle on an explicit pool with unique keys, `clock₁` being the
clock readings of the traversal and `clock₂` those of the recheck, the test `idle` evaluated in
`int64_t` as the code does (it is the plain comparison `now - last > interval * 1000000` when
nothing overflows).  An entry is in the pool after the cycle exactly when it is in the pool at
the recheck and no entry of its key was idle at the traversal and is still idle at the recheck;
so an entry registered at both moments is erased exactly when its tracker is idle at the
traversal and still idle when read again at the recheck.  A tracker idle at the traversal and
untouched since is erased when the recheck reading is not earlier than the traversal reading.
A tracker whose last-active time was set by a `consume` or `release` is kept when that time is
not idle against the recheck reading.  An entry not idle at the traversal is kept, and so is an
entry registered only after the traversal.  The cycle changes no tracker object. -/
theorem C6_idle_eviction (interval : Int) (σ₁ σ₂ : MemTrackerPool) (clock₁ clock₂ : Nat → Int)
    (hnd : (σ₁._mem_tracker_pool.map Prod.fst).Nodup) :
    (∀ (log_id : Nat) (p : SmartMemTracker),
      (log_id, p) ∈ (tracker_gc_cycle interval σ₁ clock₁ σ₂ clock₂)._mem_tracker_pool ↔
        (log_id, p) ∈ σ₂._mem_tracker_pool ∧
        ¬ ∃ q, (log_id, q) ∈ σ₁._mem_tracker_pool
          ∧ idle interval (clock₁ log_id) (σ₁.trackers q).last_active_time = true
          ∧ idle interval (clock₂ log_id) (σ₂.trackers q).last_active_time = true)
    ∧ (∀ (log_id : Nat) (p : SmartMemTracker),
        (log_id, p) ∈ σ₁._mem_tracker_pool → (log_id, p) ∈ σ₂._mem_tracker_pool →
        ((log_id, p) ∉ (tracker_gc_cycle interval σ₁ clock₁ σ₂ clock₂)._mem_tracker_pool ↔
          (idle interval (clock₁ log_id) (σ₁.trackers p).last_active_time = true
            ∧ idle interval (clock₂ log_id) (σ₂.trackers p).last_active_time = true)))
    ∧ (∀ now last : Int, is_int64 (now - last) →
        -9223372036854 ≤ interval → interval ≤ 9223372036854 →
        (idle interval now last = true ↔ now - last > interval * 1000 * 1000))
    ∧ (∀ (log_id : Nat) (p : SmartMemTracker),
        (log_id, p) ∈ σ₁._mem_tracker_pool → (log_id, p) ∈ σ₂._mem_tracker_pool →
        idle interval (clock₁ log_id) (σ₁.trackers p).last_active_time = true →
        σ₂.trackers p = σ₁.trackers p →
        clock₁ log_id ≤ clock₂ log_id →
        is_int64 (clock₁ log_id - (σ₁.trackers p).last_active_time) →
        is_int64 (clock₂ log_id - (σ₁.trackers p).last_active_time) →
        (log_id, p) ∉ (tracker_gc_cycle interval σ₁ clock₁ σ₂ clock₂)._mem_tracker_pool)
    ∧ (∀ (log_id : Nat) (p : SmartMemTracker) (bytes t : Int),
        (log_id, p) ∈ σ₁._mem_tracker_pool → (log_id, p) ∈ σ₂._mem_tracker_pool →
        (σ₂.trackers p = (σ₁.trackers p).consume bytes t
          ∨ σ₂.trackers p = (σ₁.trackers p).release bytes t) →
        idle interval (clock₂ log_id) t = false →
        (log_id, p) ∈ (tracker_gc_cycle interval σ₁ clock₁ σ₂ clock₂)._mem_tracker_pool)
    ∧ (∀ (log_id : Nat) (p : SmartMemTracker),
        (log_id, p) ∈ σ₁._mem_tracker_pool → (log_id, p) ∈ σ₂._mem_tracker_pool →
        idle interval (clock₁ log_id) (σ₁.trackers p).last_active_time = false →
        (log_id, p) ∈ (tracker_gc_cycle interval σ₁ clock₁ σ₂ clock₂)._mem_tracker_pool)
    ∧ (∀ (log_id : Nat) (p : SmartMemTracker),
        log_id ∉ σ₁._mem_tracker_pool.map Prod.fst → (log_id, p) ∈ σ₂._mem_tracker_pool →
        (log_id, p) ∈ (tracker_gc_cycle interval σ₁ clock₁ σ₂ clock₂)._mem_tracker_pool)
    ∧ (tracker_gc_cycle interval σ₁ clock₁ σ₂ clock₂).trackers = σ₂.trackers := by
  refine ⟨mem_cycle_iff interval σ₁ σ₂ clock₁ clock₂ hnd, ?_, ?_, ?_, ?_, ?_, ?_, ?_⟩
  · intro log_id p h₁ h₂
    exact cycle_erases_iff interval σ₁ σ₂ clock₁ clock₂ log_id p hnd h₁ h₂
  · intro now last hdiff hlo hhi
    exact idle_iff interval now last hdiff hlo hhi
  · intro log_id p h₁ h₂ hs hsame hclock hd₁ hd₂
    refine (cycle_erases_iff interval σ₁ σ₂ clock₁ clock₂ log_id p hnd h₁ h₂).mpr ⟨hs, ?_⟩
    rw [hsame]
    unfold idle at hs ⊢
    rw [decide_eq_true_iff] at hs ⊢
    rw [wrap_int64_of_is_int64 _ hd₁] at hs
    rw [wrap_int64_of_is_int64 _ hd₂]
    omega
  · intro log_id p bytes t h₁ h₂ htouch hrecent
    by_contra hnot
    have hr := ((cycle_erases_iff interval σ₁ σ₂ clock₁ clock₂ log_id p hnd h₁ h₂).mp hnot).2
    have hlast : (σ₂.trackers p).last_active_time = t := by
      rcases htouch with h | h <;> rw [h] <;> rfl
    rw [hlast, hrecent] at hr
    exact absurd hr (by decide)
  · intro log_id p h₁ h₂ hs
    by_contra hnot
    have hr := ((cycle_erases_iff interval σ₁ σ₂ clock₁ clock₂ log_id p hnd h₁ h₂).mp hnot).1
    rw [hs] at hr
    exact absurd hr (by decide)
  · intro log_id p hkey h₂
    refine (mem_cycle_iff interval σ₁ σ₂ clock₁ clock₂ hnd log_id p).mpr ⟨h₂, ?_⟩
    rintro ⟨q, hq, -, -⟩
    exact hkey (List.mem_map.mpr ⟨(log_id, q), hq, rfl⟩)
  · unfold tracker_gc_cycle
    exact recheck_trackers _ _ _ σ₂

/-- C6 (amended) at a concrete cycle with a threshold of 60 s: both trackers were last active at
time 0, the traversal reads the clock at 100 s, tracker 1 is touched one microsecond later and
the recheck reads the clock one microsecond after that.  The entry of log id 1 is erased, the
entry of log id 2 is kept. -/
theorem C6_idle_eviction_witness :
    (1, 0) ∉ (tracker_gc_cycle 60 example_scan_pool (fun _ => 100000000)
        example_recheck_pool (fun _ => 100000002))._mem_tracker_pool
    ∧ (2, 1) ∈ (tracker_gc_cycle 60 example_scan_pool (fun _ => 100000000)
        example_recheck_pool (fun _ => 100000002))._mem_tracker_pool :=
  ⟨((C6_idle_eviction 60 example_scan_pool example_recheck_pool (fun _ => 100000000)
      (fun _ => 100000002) (by decide)).2.1 1 0 (by decide) (by decide)).mpr
      ⟨by decide, by decide⟩,
   (C6_idle_eviction 60 example_scan_pool example_recheck_pool (fun _ => 100000000)
      (fun _ => 100000002) (by decide)).2.2.2.2.1 2 1 10 100000001 (by decide) (by decide)
      (Or.inl (by decide)) (by decide)⟩

end baikaldb
